import Mathlib

/-!
# Verification of the `tts-service` backend (`run.py` and `worker.py`)

A shallow embedding of the two source files of the repository:

* `run.py` — Flask submission service: `POST /api/tts` validates the `text`
  form field, enqueues a job on the `tts` Redis queue, then polls the job
  (interval 0.5 s, overall budget 60 s) and maps the observed terminal state
  to an HTTP response.
* `worker.py` — RQ worker: `process_tts` connects to SFTP, positions itself
  in the remote delivery directory (creating it when absent), synthesizes
  PCM with Piper, packages it as in-memory WAV, transcodes to GSM with
  pydub, uploads the file under a `uuid4().hex + ".gsm"` name, and closes
  the SFTP client and transport in a `finally` block.

External collaborators (Redis/RQ, Piper, pydub, paramiko) are modelled as
parameters of an environment record; the control flow, the event order and
the data handed to them are translated from the source.  Time is discrete:
one poll-loop iteration = one `job.refresh()` plus one 0.5 s sleep, so the
60 s wait budget is 120 iterations (`waited` takes the values 0, 0.5, …,
59.5 — all exactly representable, so the Python loop runs exactly 120
times).
-/

namespace TTSService

/-- Job status as exposed by an RQ job handle (`job.is_finished`,
`job.is_failed`; everything else — queued, started, deferred … — is
non-terminal for the poll loop). -/
inductive JobStatus
  | queued
  | running
  | finished
  | failed
deriving DecidableEq

/-- The submission service's view of a job record after `job.refresh()`:
its status, its `result` (set by the worker on success) and the captured
error text (set by RQ on failure).  The poll loop reads this record from
the Redis store. -/
structure JobView where
  status : JobStatus
  result : String
  error : String
deriving DecidableEq

/-- An HTTP response of the Flask handler: status code and (JSON) body. -/
structure Response where
  status : Nat
  body : String
deriving DecidableEq

/-- `if not text: return jsonify({"error": ...}), 400` -/
def formErrorMsg : String := "Se requiere el campo \x27text\x27 en el form-data"

/-- Body of the 500 returned when the job is observed `failed`.  A fixed
string: `job.error`/`job.exc_info` is never interpolated. -/
def workerFailedMsg : String := "El worker falló al procesar la tarea"

/-- Body of the 504 returned when the wait budget is exhausted. -/
def timeoutMsg : String := "Tiempo de espera agotado, la tarea tardó demasiado"

/-- Prefix of the 500 body built from the exception when enqueueing (or
talking to Redis) raises. -/
def redisErrorPrefix : String := "No se pudo conectar o encolar la tarea en Redis: "

/-- Operations the submission service can perform on the job record in the
backing store.  `read` is `job.refresh()` (plus the pure status/result
accessors on the refreshed local copy); `write` is any mutation of the
stored job (cancel, delete, status change).  The source's poll loop only
ever issues `read`. -/
inductive StoreOp
  | read
  | write (j : JobView)
deriving DecidableEq

/-- Effect of one store operation on the stored job record. -/
def applyOp (j : JobView) : StoreOp → JobView
  | .read => j
  | .write j2 => j2

/-- Effect of a sequence of store operations on the stored job record. -/
def applyOps (ops : List StoreOp) (j : JobView) : JobView :=
  ops.foldl applyOp j

/-- `job.is_finished || job.is_failed` — the terminal statuses. -/
def isTerminal : JobStatus → Bool
  | .finished => true
  | .failed => true
  | _ => false

/-- `timeout = 60`, `interval = 0.5`: the `while waited < timeout` loop body
runs for `waited ∈ {0, 0.5, …, 59.5}`, i.e. exactly 120 iterations, each
performing one `job.refresh()` and one `time.sleep(0.5)`. -/
def pollIterations : Nat := 120

/-- The poll loop of `enqueue_tts_task`, from iteration `i` with `fuel`
iterations of budget left.  `observe i` is the job record the `i`-th
`job.refresh()` reads from the store (the worker mutates the store
externally between polls).  Returns the HTTP response together with the
trace of store operations the service performed. -/
def pollFrom (observe : Nat → JobView) : Nat → Nat → Response × List StoreOp
  | _, 0 => (⟨504, timeoutMsg⟩, [])
  | i, fuel + 1 =>
    let j := observe i
    if j.status = .finished then
      (⟨200, j.result⟩, [.read])
    else if j.status = .failed then
      (⟨500, workerFailedMsg⟩, [.read])
    else
      let rest := pollFrom observe (i + 1) fuel
      (rest.1, .read :: rest.2)

/-- The whole poll loop: 120 iterations starting at poll 0. -/
def pollLoop (observe : Nat → JobView) : Response × List StoreOp :=
  pollFrom observe 0 pollIterations

/-- Outcome of one invocation of the `POST /api/tts` handler: the HTTP
response, the list of payloads for which `q.enqueue` was called, and the
trace of operations performed on the job record in the store. -/
structure HandlerOut where
  response : Response
  enqueued : List String
  jobOps : List StoreOp
deriving DecidableEq

/-- `enqueue_tts_task` of `run.py`.

* `text` — `request.form.get('text')` (`none` when the field is missing);
* `enq` — behaviour of `q.enqueue('worker.process_tts', text, job_timeout='2m')`:
  `.ok ()` when the broker accepts, `.error e` when it raises (broker
  unreachable), in which case the `except Exception` branch answers 500;
* `observe` — the job records successive `job.refresh()` calls read. -/
def enqueue_tts_task (text : Option String) (enq : Except String Unit)
    (observe : Nat → JobView) : HandlerOut :=
  match text with
  | none => ⟨⟨400, formErrorMsg⟩, [], []⟩
  | some t =>
    if t = "" then ⟨⟨400, formErrorMsg⟩, [], []⟩
    else
      match enq with
      | .error e => ⟨⟨500, redisErrorPrefix ++ e⟩, [t], []⟩
      | .ok _ =>
        let r := pollLoop observe
        ⟨r.1, [t], r.2⟩

/-- `GET /health` of `run.py`. -/
def health_check : Response := ⟨200, "ok"⟩

/-! ## `worker.py` -/

/-- `SFTP_HOST = '10.101.214.227'` -/
def SFTP_HOST : String := "10.101.214.227"

/-- `REMOTE_PATH = '/var/lib/asterisk/sounds/campanas'` -/
def REMOTE_PATH : String := "/var/lib/asterisk/sounds/campanas"

/-- Observable events of one `process_tts` run, in execution order.
`uploadEv` records the SFTP session's current working directory at the
moment of `sftp_client.putfo(gsm_buffer, filename)` (a relative `putfo`
writes into the session cwd) together with the file name. -/
inductive Ev
  | mkTransport
  | connectTransport
  | openSftp
  | chdirEv (p : String)
  | mkdirEv (p : String)
  | synthesizeEv
  | packageEv
  | transcodeEv
  | uploadEv (cwd : Option String) (name : String)
  | closeSftp
  | closeTransport
deriving DecidableEq

/-- The dict returned by `process_tts` on success:
`{"filename": filename, "saved_to": f"{SFTP_HOST}:{REMOTE_PATH}/{filename}"}`. -/
structure TtsResult where
  filename : String
  saved_to : String
deriving DecidableEq

/-- Environment of one `process_tts` run: the behaviour of the external
collaborators (paramiko transport/SFTP, remote filesystem, Piper, pydub)
and the value `uuid.uuid4().hex` produced for this job. -/
structure Env where
  /-- `paramiko.Transport((SFTP_HOST, SFTP_PORT))` succeeds (else it raises
  and `transport` stays `None`). -/
  transportOk : Bool
  /-- `transport.connect(username=…, password=…)` succeeds. -/
  connectOk : Bool
  /-- `paramiko.SFTPClient.from_transport(transport)` succeeds. -/
  sftpOk : Bool
  /-- Directories existing on the remote host; `sftp_client.chdir(p)`
  raises `IOError` exactly when `p` is not among them. -/
  dirs : List String
  /-- `sftp_client.mkdir(REMOTE_PATH)` succeeds (creating the directory). -/
  mkdirOk : Bool
  /-- `voice.config.sample_rate` of the loaded Piper model. -/
  sampleRate : Nat
  /-- Piper: `voice.synthesize(text)` joined into PCM int16 bytes, or the
  exception it raises. -/
  synth : String → Except String (List Nat)
  /-- pydub: `AudioSegment.from_wav … set_frame_rate(8000).set_channels(1)
  … export(format='gsm')` on the WAV bytes, or the exception it raises. -/
  transcode : List Nat → Except String (List Nat)
  /-- `sftp_client.putfo(gsm_buffer, filename)` succeeds. -/
  uploadOk : Bool
  /-- The `uuid.uuid4().hex` drawn for this job (32 lowercase hex digits). -/
  freshHex : String

/-- Little-endian 32-bit field of a WAV header. -/
def u32le (n : Nat) : List Nat :=
  [n % 256, n / 256 % 256, n / 65536 % 256, n / 16777216 % 256]

/-- Little-endian 16-bit field of a WAV header. -/
def u16le (n : Nat) : List Nat :=
  [n % 256, n / 256 % 256]

/-- The in-memory WAV packaging done with the stdlib `wave` module:
a 44-byte RIFF/WAVE header (PCM, 1 channel, 16-bit samples, the model's
sample rate) followed by the raw PCM bytes — `setnchannels(1)`,
`setsampwidth(2)`, `setframerate(voice.config.sample_rate)`,
`writeframes(pcm_audio_bytes)`. -/
def wavPackage (sampleRate : Nat) (pcm : List Nat) : List Nat :=
  [82, 73, 70, 70] ++ u32le (36 + pcm.length) ++ [87, 65, 86, 69] ++
  [102, 109, 116, 32] ++ u32le 16 ++ u16le 1 ++ u16le 1 ++
  u32le sampleRate ++ u32le (sampleRate * 2) ++ u16le 2 ++ u16le 16 ++
  [100, 97, 116, 97] ++ u32le pcm.length ++ pcm

/-- Result of the `try` body of `process_tts` (before the `finally`):
outcome, events so far, and whether `transport` / `sftp_client` are
non-`None` (i.e. were successfully created and must be closed). -/
structure BodyOut where
  result : Except String TtsResult
  events : List Ev
  transportOpened : Bool
  sftpOpened : Bool

/-- The pipeline tail after the SFTP session is positioned in the remote
directory: synthesize → package WAV → transcode to GSM → name and upload.
`cwd` is the session's current working directory established by the
preceding `chdir`. -/
def ptAfterChdir (env : Env) (text : String) (evs : List Ev)
    (cwd : Option String) : BodyOut :=
  match env.synth text with
  | .error e =>
    ⟨.error ("synthesis raised: " ++ e), evs, true, true⟩
  | .ok pcm =>
    let evs1 := evs ++ [.synthesizeEv]
    let wav := wavPackage env.sampleRate pcm
    let evs2 := evs1 ++ [.packageEv]
    match env.transcode wav with
    | .error e =>
      ⟨.error ("transcode raised: " ++ e), evs2, true, true⟩
    | .ok _gsm =>
      let evs3 := evs2 ++ [.transcodeEv]
      let filename := env.freshHex ++ ".gsm"
      if env.uploadOk = false then
        ⟨.error "putfo raised", evs3, true, true⟩
      else
        ⟨.ok ⟨filename, SFTP_HOST ++ ":" ++ REMOTE_PATH ++ "/" ++ filename⟩,
          evs3 ++ [.uploadEv cwd filename], true, true⟩

/-- The `try` body of `process_tts`: create the transport, connect it, open
the SFTP client, `chdir(REMOTE_PATH)` — on `IOError` `mkdir(REMOTE_PATH)`
then `chdir(REMOTE_PATH)` — then run the pipeline tail. -/
def ptBody (env : Env) (text : String) : BodyOut :=
  if env.transportOk = false then
    ⟨.error "Transport raised", [], false, false⟩
  else if env.connectOk = false then
    ⟨.error "connect raised", [.mkTransport], true, false⟩
  else if env.sftpOk = false then
    ⟨.error "from_transport raised", [.mkTransport, .connectTransport], true, false⟩
  else
    let pre : List Ev := [.mkTransport, .connectTransport, .openSftp]
    if REMOTE_PATH ∈ env.dirs then
      ptAfterChdir env text (pre ++ [.chdirEv REMOTE_PATH]) (some REMOTE_PATH)
    else if env.mkdirOk = false then
      ⟨.error "mkdir raised", pre, true, true⟩
    else
      ptAfterChdir env text
        (pre ++ [.mkdirEv REMOTE_PATH, .chdirEv REMOTE_PATH]) (some REMOTE_PATH)

/-- `process_tts(text)` of `worker.py`: the `try` body followed by the
`finally` block, which closes `sftp_client` and then `transport` whenever
they are non-`None` — on every exit path, success or exception. -/
def process_tts (env : Env) (text : String) : Except String TtsResult × List Ev :=
  let b := ptBody env text
  (b.result,
    b.events ++ (if b.sftpOpened then [Ev.closeSftp] else []) ++
      (if b.transportOpened then [Ev.closeTransport] else []))

/-- Trace of a worker processing a sequence of jobs one after the other
(one RQ worker handles one job at a time; each job is a fresh
`process_tts` call). -/
def runJobs (env : Env) (texts : List String) : List Ev :=
  (texts.map fun t => (process_tts env t).2).flatten

/-- A fully-successful environment: reachable host, credentials accepted,
remote directory already present, Piper and pydub succeed, upload
succeeds, and a concrete `uuid4().hex` draw (32 hex digits). -/
def okEnv : Env where
  transportOk := true
  connectOk := true
  sftpOk := true
  dirs := [REMOTE_PATH]
  mkdirOk := true
  sampleRate := 22050
  synth := fun _ => .ok [1, 2, 3, 4]
  transcode := fun _ => .ok [7, 8]
  uploadOk := true
  freshHex := "0123456789abcdef0123456789abcdef"

/-- Like `okEnv` but the remote delivery directory does not exist yet, so
the first `chdir` raises `IOError` and the worker takes the
`mkdir`-then-`chdir` branch. -/
def noDirEnv : Env := { okEnv with dirs := [] }

/-- A hexadecimal digit as produced by `uuid4().hex` (lowercase). -/
def isHexChar (c : Char) : Bool :=
  c.isDigit || (97 ≤ c.toNat && c.toNat ≤ 102)

/-- Refinement definition following the spec's words: a file name that
"consists of 64 hexadecimal characters followed by the fixed extension
`.gsm`". -/
def specFilename64Hex (s : String) : Bool :=
  s.length = 68 && decide (s.data.drop 64 = (".gsm" : String).data) &&
    (s.data.take 64).all isHexChar

/-- The `filename` field of a successful `process_tts` outcome (empty on
failure). -/
def resultFilename : Except String TtsResult → String
  | .ok r => r.filename
  | .error _ => ""

/-! ## Poll-loop lemmas -/

theorem isTerminal_false_cases {s : JobStatus} (h : isTerminal s = false) :
    s ≠ JobStatus.finished ∧ s ≠ JobStatus.failed := by
  cases s <;> simp_all [isTerminal]

theorem pollFrom_nonterminal (observe : Nat → JobView) :
    ∀ fuel i, (∀ j, j < fuel → isTerminal (observe (i + j)).status = false) →
      (pollFrom observe i fuel).1 = ⟨504, timeoutMsg⟩ := by
  intro fuel
  induction fuel with
  | zero => intro i _; rfl
  | succ n ih =>
    intro i h
    obtain ⟨h1, h2⟩ := isTerminal_false_cases (by simpa using h 0 n.succ_pos)
    have hrest : ∀ j, j < n → isTerminal (observe (i + 1 + j)).status = false := by
      intro j hj
      have := h (j + 1) (by omega)
      have heq : i + (j + 1) = i + 1 + j := by omega
      rwa [heq] at this
    simp [pollFrom, h1, h2, ih (i + 1) hrest]

theorem pollFrom_finished (observe : Nat → JobView) :
    ∀ fuel k i, k < fuel →
      (∀ j, j < k → isTerminal (observe (i + j)).status = false) →
      (observe (i + k)).status = JobStatus.finished →
      (pollFrom observe i fuel).1 = ⟨200, (observe (i + k)).result⟩ := by
  intro fuel
  induction fuel with
  | zero => intro k i hk _ _; exact absurd hk (Nat.not_lt_zero k)
  | succ n ih =>
    intro k i hk hpre hfin
    cases k with
    | zero =>
      simp only [Nat.add_zero] at hfin ⊢
      simp [pollFrom, hfin]
    | succ m =>
      obtain ⟨h1, h2⟩ := isTerminal_false_cases (by simpa using hpre 0 m.succ_pos)
      have hpre2 : ∀ j, j < m → isTerminal (observe (i + 1 + j)).status = false := by
        intro j hj
        have := hpre (j + 1) (by omega)
        have heq : i + (j + 1) = i + 1 + j := by omega
        rwa [heq] at this
      have heq : i + (m + 1) = i + 1 + m := by omega
      rw [heq] at hfin ⊢
      have := ih m (i + 1) (by omega) hpre2 hfin
      simp [pollFrom, h1, h2, this]

theorem pollFrom_failed (observe : Nat → JobView) :
    ∀ fuel k i, k < fuel →
      (∀ j, j < k → isTerminal (observe (i + j)).status = false) →
      (observe (i + k)).status = JobStatus.failed →
      (pollFrom observe i fuel).1 = ⟨500, workerFailedMsg⟩ := by
  intro fuel
  induction fuel with
  | zero => intro k i hk _ _; exact absurd hk (Nat.not_lt_zero k)
  | succ n ih =>
    intro k i hk hpre hfail
    cases k with
    | zero =>
      simp only [Nat.add_zero] at hfail ⊢
      have h1 : (observe i).status ≠ JobStatus.finished := by simp [hfail]
      simp [pollFrom, h1, hfail]
    | succ m =>
      obtain ⟨h1, h2⟩ := isTerminal_false_cases (by simpa using hpre 0 m.succ_pos)
      have hpre2 : ∀ j, j < m → isTerminal (observe (i + 1 + j)).status = false := by
        intro j hj
        have := hpre (j + 1) (by omega)
        have heq : i + (j + 1) = i + 1 + j := by omega
        rwa [heq] at this
      have heq : i + (m + 1) = i + 1 + m := by omega
      rw [heq] at hfail
      have := ih m (i + 1) (by omega) hpre2 hfail
      simp [pollFrom, h1, h2, this]

theorem pollFrom_ops_read (observe : Nat → JobView) :
    ∀ fuel i, ∀ op ∈ (pollFrom observe i fuel).2, op = StoreOp.read := by
  intro fuel
  induction fuel with
  | zero => intro i op hop; simp [pollFrom] at hop
  | succ n ih =>
    intro i op hop
    by_cases h1 : (observe i).status = JobStatus.finished
    · simp [pollFrom, h1] at hop; exact hop
    · by_cases h2 : (observe i).status = JobStatus.failed
      · simp [pollFrom, h1, h2] at hop; exact hop
      · simp [pollFrom, h1, h2] at hop
        rcases hop with rfl | hop
        · rfl
        · exact ih (i + 1) op hop

theorem pollFrom_ops_length (observe : Nat → JobView) :
    ∀ fuel i, (pollFrom observe i fuel).2.length ≤ fuel := by
  intro fuel
  induction fuel with
  | zero => intro i; simp [pollFrom]
  | succ n ih =>
    intro i
    by_cases h1 : (observe i).status = JobStatus.finished
    · simp [pollFrom, h1]
    · by_cases h2 : (observe i).status = JobStatus.failed
      · simp [pollFrom, h1, h2]
      · simp only [pollFrom, h1, h2, if_false, List.length_cons]
        have := ih (i + 1)
        omega

theorem pollFrom_500_body (observe : Nat → JobView) :
    ∀ fuel i, (pollFrom observe i fuel).1.status = 500 →
      (pollFrom observe i fuel).1.body = workerFailedMsg := by
  intro fuel
  induction fuel with
  | zero => intro i h; simp [pollFrom] at h
  | succ n ih =>
    intro i h
    by_cases h1 : (observe i).status = JobStatus.finished
    · simp [pollFrom, h1] at h
    · by_cases h2 : (observe i).status = JobStatus.failed
      · simp [pollFrom, h1, h2]
      · simp only [pollFrom, h1, h2, if_false] at h ⊢
        exact ih (i + 1) h

theorem applyOps_of_reads (ops : List StoreOp)
    (h : ∀ op ∈ ops, op = StoreOp.read) (j : JobView) :
    applyOps ops j = j := by
  induction ops generalizing j with
  | nil => rfl
  | cons a l ih =>
    have ha := h a (List.mem_cons_self a l)
    subst ha
    exact ih (fun op hop => h op (List.mem_cons_of_mem _ hop)) j

/-! ## Claims on `run.py` -/

/-- **C4** — For every enqueued job, the bounded poll loop follows the
transition table: while the observed status is non-terminal it sleeps
0.5 s and re-polls (one iteration = one `refresh` + one 0.5 s sleep, so the
60 s budget is `pollIterations = 120` iterations); observing `finished`
returns 200 with the job's result; observing `failed` returns 500; and if
all 120 polls observe a non-terminal status the loop returns 504 — the
caller is never held beyond the wait budget (at most 120 store reads). -/
theorem C4_poll_transition_table (observe : Nat → JobView) :
    ((∀ i, i < pollIterations → isTerminal (observe i).status = false) →
      (pollLoop observe).1 = ⟨504, timeoutMsg⟩) ∧
    (∀ k, k < pollIterations →
      (∀ j, j < k → isTerminal (observe j).status = false) →
      ((observe k).status = JobStatus.finished →
        (pollLoop observe).1 = ⟨200, (observe k).result⟩) ∧
      ((observe k).status = JobStatus.failed →
        (pollLoop observe).1 = ⟨500, workerFailedMsg⟩)) ∧
    (pollLoop observe).2.length ≤ pollIterations := by
  refine ⟨?_, ?_, pollFrom_ops_length observe pollIterations 0⟩
  · intro h
    exact pollFrom_nonterminal observe pollIterations 0 (by simpa using h)
  · intro k hk hpre
    constructor
    · intro hfin
      have := pollFrom_finished observe pollIterations k 0 hk
        (by simpa using hpre) (by simpa using hfin)
      simpa using this
    · intro hfail
      have := pollFrom_failed observe pollIterations k 0 hk
        (by simpa using hpre) (by simpa using hfail)
      simpa using this

/-- Witness for C4 at concrete inputs: a job that never leaves `queued`
yields 504, and a job observed `finished` at the first poll yields 200
with its result. -/
theorem C4_poll_transition_table_witness :
    (pollLoop (fun _ => ⟨JobStatus.queued, "", ""⟩)).1 = ⟨504, timeoutMsg⟩ ∧
    (pollLoop (fun _ => ⟨JobStatus.finished, "res", ""⟩)).1 = ⟨200, "res"⟩ :=
  ⟨(C4_poll_transition_table (fun _ => ⟨JobStatus.queued, "", ""⟩)).1
      (fun _ _ => rfl),
    (((C4_poll_transition_table (fun _ => ⟨JobStatus.finished, "res", ""⟩)).2.1
      0 (by decide) (fun j hj => absurd hj (Nat.not_lt_zero j))).1 rfl)⟩

/-- **C5** — A `POST /api/tts` whose `text` form field is missing or empty
gets HTTP 400 and `q.enqueue` is never called, whatever the broker and the
job store would have done. -/
theorem C5_missing_or_empty_text_400 (enq : Except String Unit)
    (observe : Nat → JobView) :
    (enqueue_tts_task none enq observe).response.status = 400 ∧
    (enqueue_tts_task none enq observe).enqueued = [] ∧
    (enqueue_tts_task (some "") enq observe).response.status = 400 ∧
    (enqueue_tts_task (some "") enq observe).enqueued = [] := by
  refine ⟨rfl, rfl, ?_, ?_⟩ <;> simp [enqueue_tts_task]

/-- **C6** — When `q.enqueue` raises (broker unreachable), the handler
answers HTTP 500 via its `except Exception` branch (a response, not a
crash), and its job-store operation trace is empty: no polling ever
began. -/
theorem C6_enqueue_failure_500 (t e : String) (observe : Nat → JobView)
    (h : t ≠ "") :
    (enqueue_tts_task (some t) (Except.error e) observe).response.status = 500 ∧
    (enqueue_tts_task (some t) (Except.error e) observe).jobOps = [] := by
  simp [enqueue_tts_task, h]

/-- Witness for C6: broker down on a concrete non-empty text. -/
theorem C6_enqueue_failure_500_witness :
    (enqueue_tts_task (some "Hola mundo") (Except.error "broker down")
      (fun _ => ⟨JobStatus.queued, "", ""⟩)).response.status = 500 ∧
    (enqueue_tts_task (some "Hola mundo") (Except.error "broker down")
      (fun _ => ⟨JobStatus.queued, "", ""⟩)).jobOps = [] :=
  C6_enqueue_failure_500 "Hola mundo" "broker down"
    (fun _ => ⟨JobStatus.queued, "", ""⟩) (by decide)

/-- **C7** — On every path of the handler (including the 504 timeout path)
the only operation performed on the job record is `read`
(`job.refresh()`); applying the handler's whole operation trace to any
stored job record leaves it unchanged — the service never cancels or
modifies the job. -/
theorem C7_service_never_writes_job (text : Option String)
    (enq : Except String Unit) (observe : Nat → JobView) :
    (∀ op ∈ (enqueue_tts_task text enq observe).jobOps, op = StoreOp.read) ∧
    ∀ j, applyOps (enqueue_tts_task text enq observe).jobOps j = j := by
  have hread : ∀ op ∈ (enqueue_tts_task text enq observe).jobOps,
      op = StoreOp.read := by
    rcases text with _ | t
    · intro op hop; simp [enqueue_tts_task] at hop
    · by_cases ht : t = ""
      · intro op hop; simp [enqueue_tts_task, ht] at hop
      · rcases enq with e | u
        · intro op hop; simp [enqueue_tts_task, ht] at hop
        · intro op hop
          simp only [enqueue_tts_task, ht, if_false] at hop
          exact pollFrom_ops_read observe pollIterations 0 op hop
  exact ⟨hread, fun j => applyOps_of_reads _ hread j⟩

/-- Witness for C7: a concrete timed-out run (job stuck in `queued`)
leaves a concrete job record unchanged. -/
theorem C7_service_never_writes_job_witness :
    applyOps (enqueue_tts_task (some "hola") (Except.ok ())
        (fun _ => ⟨JobStatus.queued, "", ""⟩)).jobOps
      ⟨JobStatus.running, "", ""⟩ = ⟨JobStatus.running, "", ""⟩ :=
  (C7_service_never_writes_job (some "hola") (Except.ok ())
    (fun _ => ⟨JobStatus.queued, "", ""⟩)).2 ⟨JobStatus.running, "", ""⟩

/-- **C9** — Any two poll-loop runs that answer HTTP 500 (job observed
`failed`) produce byte-identical bodies, whatever error text the two jobs
captured: the handler's 500 body is the fixed `workerFailedMsg` and never
interpolates `job.error`. -/
theorem C9_failed_bodies_identical (o1 o2 : Nat → JobView)
    (h1 : (pollLoop o1).1.status = 500) (h2 : (pollLoop o2).1.status = 500) :
    (pollLoop o1).1.body = (pollLoop o2).1.body := by
  unfold pollLoop at h1 h2 ⊢
  rw [pollFrom_500_body o1 pollIterations 0 h1,
    pollFrom_500_body o2 pollIterations 0 h2]

/-- Witness for C9: two jobs failing with different captured errors get the
same 500 body. -/
theorem C9_failed_bodies_identical_witness :
    (pollLoop (fun _ => ⟨JobStatus.failed, "", "traceback A"⟩)).1.body =
      (pollLoop (fun _ => ⟨JobStatus.failed, "", "other error B"⟩)).1.body :=
  C9_failed_bodies_identical
    (fun _ => ⟨JobStatus.failed, "", "traceback A"⟩)
    (fun _ => ⟨JobStatus.failed, "", "other error B"⟩) rfl rfl

/-! ## Worker pipeline lemmas -/

theorem ptAfterChdir_opened (env : Env) (text : String) (evs : List Ev)
    (cwd : Option String) :
    (ptAfterChdir env text evs cwd).transportOpened = true ∧
    (ptAfterChdir env text evs cwd).sftpOpened = true := by
  rcases hsy : env.synth text with e | pcm
  · simp [ptAfterChdir, hsy]
  · rcases htc : env.transcode (wavPackage env.sampleRate pcm) with e2 | g
    · simp [ptAfterChdir, hsy, htc]
    · cases hu : env.uploadOk <;> simp [ptAfterChdir, hsy, htc, hu]

theorem ptAfterChdir_events_prefix (env : Env) (text : String) (evs : List Ev)
    (cwd : Option String) :
    ∃ suffix, (ptAfterChdir env text evs cwd).events = evs ++ suffix := by
  rcases hsy : env.synth text with e | pcm
  · exact ⟨[], by simp [ptAfterChdir, hsy]⟩
  · rcases htc : env.transcode (wavPackage env.sampleRate pcm) with e2 | g
    · exact ⟨[Ev.synthesizeEv, Ev.packageEv], by simp [ptAfterChdir, hsy, htc]⟩
    · cases hu : env.uploadOk
      · exact ⟨[Ev.synthesizeEv, Ev.packageEv, Ev.transcodeEv],
          by simp [ptAfterChdir, hsy, htc, hu]⟩
      · exact ⟨[Ev.synthesizeEv, Ev.packageEv, Ev.transcodeEv,
          Ev.uploadEv cwd (env.freshHex ++ ".gsm")],
          by simp [ptAfterChdir, hsy, htc, hu]⟩

theorem ptAfterChdir_upload_mem (env : Env) (text : String) (evs : List Ev)
    (cwd0 cwd : Option String) (name : String)
    (h : Ev.uploadEv cwd name ∈ (ptAfterChdir env text evs cwd0).events) :
    Ev.uploadEv cwd name ∈ evs ∨
      (cwd = cwd0 ∧ name = env.freshHex ++ ".gsm") := by
  rcases hsy : env.synth text with e | pcm
  · simp only [ptAfterChdir, hsy] at h
    exact Or.inl h
  · rcases htc : env.transcode (wavPackage env.sampleRate pcm) with e2 | g
    · simp [ptAfterChdir, hsy, htc] at h
      exact Or.inl h
    · cases hu : env.uploadOk
      · simp [ptAfterChdir, hsy, htc, hu] at h
        exact Or.inl h
      · simp [ptAfterChdir, hsy, htc, hu] at h
        rcases h with h | h
        · exact Or.inl h
        · exact Or.inr ⟨h.1, h.2⟩

theorem ptAfterChdir_ok_shape (env : Env) (text : String) (evs : List Ev)
    (cwd : Option String) (r : TtsResult)
    (hok : (ptAfterChdir env text evs cwd).result = Except.ok r) :
    r.filename = env.freshHex ++ ".gsm" ∧
    r.saved_to = SFTP_HOST ++ ":" ++ REMOTE_PATH ++ "/" ++ r.filename := by
  rcases hsy : env.synth text with e | pcm
  · simp [ptAfterChdir, hsy] at hok
  · rcases htc : env.transcode (wavPackage env.sampleRate pcm) with e2 | g
    · simp [ptAfterChdir, hsy, htc] at hok
    · cases hu : env.uploadOk
      · simp [ptAfterChdir, hsy, htc, hu] at hok
      · have hok2 : (Except.ok (⟨env.freshHex ++ ".gsm",
            SFTP_HOST ++ ":" ++ REMOTE_PATH ++ "/" ++ (env.freshHex ++ ".gsm")⟩ :
            TtsResult) : Except String TtsResult) = Except.ok r := by
          rw [← hok]
          simp [ptAfterChdir, hsy, htc, hu]
        injection hok2 with h2
        subst h2
        exact ⟨rfl, rfl⟩

theorem ptBody_transportOpened (env : Env) (text : String) :
    (ptBody env text).transportOpened = env.transportOk := by
  cases htr : env.transportOk
  · simp [ptBody, htr]
  · cases hc : env.connectOk
    · simp [ptBody, htr, hc]
    · cases hsf : env.sftpOk
      · simp [ptBody, htr, hc, hsf]
      · by_cases hd : REMOTE_PATH ∈ env.dirs
        · simp [ptBody, htr, hc, hsf, hd, (ptAfterChdir_opened env text _ _).1]
        · cases hm : env.mkdirOk <;>
            simp [ptBody, htr, hc, hsf, hd, hm,
              (ptAfterChdir_opened env text _ _).1]

theorem ptBody_opened (env : Env) (text : String) (htr : env.transportOk = true)
    (hc : env.connectOk = true) (hsf : env.sftpOk = true) :
    (ptBody env text).transportOpened = true ∧
    (ptBody env text).sftpOpened = true := by
  simp only [ptBody, htr, hc, hsf]
  by_cases hd : REMOTE_PATH ∈ env.dirs
  · simp [hd, ptAfterChdir_opened]
  · cases hm : env.mkdirOk <;> simp [hd, hm, ptAfterChdir_opened]

theorem process_tts_closeTransport (env : Env) (text : String)
    (htr : env.transportOk = true) :
    Ev.closeTransport ∈ (process_tts env text).2 := by
  have h := ptBody_transportOpened env text
  rw [htr] at h
  simp [process_tts, h]

theorem ptAfterChdir_count_mkTransport (env : Env) (text : String)
    (evs : List Ev) (cwd : Option String) :
    (ptAfterChdir env text evs cwd).events.count Ev.mkTransport =
      evs.count Ev.mkTransport := by
  rcases hsy : env.synth text with e | pcm
  · simp [ptAfterChdir, hsy]
  · rcases htc : env.transcode (wavPackage env.sampleRate pcm) with e2 | g
    · simp [ptAfterChdir, hsy, htc, List.count_append]
    · cases hu : env.uploadOk <;>
        simp [ptAfterChdir, hsy, htc, hu, List.count_append]

theorem ptBody_eq_dirExists (env : Env) (text : String)
    (htr : env.transportOk = true) (hc : env.connectOk = true)
    (hsf : env.sftpOk = true) (hd : REMOTE_PATH ∈ env.dirs) :
    ptBody env text = ptAfterChdir env text
      [Ev.mkTransport, Ev.connectTransport, Ev.openSftp, Ev.chdirEv REMOTE_PATH]
      (some REMOTE_PATH) := by
  simp [ptBody, htr, hc, hsf, hd]

theorem ptBody_eq_dirCreated (env : Env) (text : String)
    (htr : env.transportOk = true) (hc : env.connectOk = true)
    (hsf : env.sftpOk = true) (hd : REMOTE_PATH ∉ env.dirs)
    (hm : env.mkdirOk = true) :
    ptBody env text = ptAfterChdir env text
      [Ev.mkTransport, Ev.connectTransport, Ev.openSftp,
        Ev.mkdirEv REMOTE_PATH, Ev.chdirEv REMOTE_PATH]
      (some REMOTE_PATH) := by
  simp [ptBody, htr, hc, hsf, hd, hm]

theorem process_tts_count_mkTransport (env : Env) (text : String)
    (htr : env.transportOk = true) :
    (process_tts env text).2.count Ev.mkTransport = 1 := by
  have key : (ptBody env text).events.count Ev.mkTransport = 1 := by
    cases hc : env.connectOk
    · simp [ptBody, htr, hc]
    · cases hsf : env.sftpOk
      · simp [ptBody, htr, hc, hsf]
      · by_cases hd : REMOTE_PATH ∈ env.dirs
        · rw [ptBody_eq_dirExists env text htr hc hsf hd,
            ptAfterChdir_count_mkTransport]
          decide
        · cases hm : env.mkdirOk
          · have hpre : ptBody env text =
                ⟨Except.error "mkdir raised",
                  [Ev.mkTransport, Ev.connectTransport, Ev.openSftp],
                  true, true⟩ := by
              simp [ptBody, htr, hc, hsf, hd, hm]
            rw [hpre]
            decide
          · rw [ptBody_eq_dirCreated env text htr hc hsf hd hm,
              ptAfterChdir_count_mkTransport]
            decide
  show ((ptBody env text).events ++ _ ++ _).count Ev.mkTransport = 1
  rw [List.count_append, List.count_append, key]
  cases (ptBody env text).sftpOpened <;>
    cases (ptBody env text).transportOpened <;> simp

theorem process_tts_ok_shape (env : Env) (text : String) (r : TtsResult)
    (hok : (process_tts env text).1 = Except.ok r) :
    r.filename = env.freshHex ++ ".gsm" ∧
    r.saved_to = SFTP_HOST ++ ":" ++ REMOTE_PATH ++ "/" ++ r.filename := by
  have hb : (ptBody env text).result = Except.ok r := hok
  cases htr : env.transportOk
  · simp [ptBody, htr] at hb
  · cases hc : env.connectOk
    · simp [ptBody, htr, hc] at hb
    · cases hsf : env.sftpOk
      · simp [ptBody, htr, hc, hsf] at hb
      · by_cases hd : REMOTE_PATH ∈ env.dirs
        · rw [ptBody_eq_dirExists env text htr hc hsf hd] at hb
          exact ptAfterChdir_ok_shape env text _ _ r hb
        · cases hm : env.mkdirOk
          · simp [ptBody, htr, hc, hsf, hd, hm] at hb
          · rw [ptBody_eq_dirCreated env text htr hc hsf hd hm] at hb
            exact ptAfterChdir_ok_shape env text _ _ r hb

/-! ## Claims on `worker.py` -/

/-- **C1 (counterexample)** — The claim says the SFTP connection is a
process-wide cached resource, reused across jobs and never explicitly torn
down during normal per-job operation.  In the code there is no cache: a
worker processing two perfectly normal, fully successful jobs opens the
transport twice (`paramiko.Transport` once per job), and a single normal
job's trace already contains the explicit `sftp_client.close()` and
`transport.close()` teardown of the `finally` block. -/
theorem C1_counterexample :
    (runJobs okEnv ["Hola mundo", "Adios"]).count Ev.mkTransport = 2 ∧
    Ev.closeTransport ∈ (process_tts okEnv "Hola mundo").2 ∧
    Ev.closeSftp ∈ (process_tts okEnv "Hola mundo").2 := by decide

/-- **C1 (amended)** — The SFTP connection is strictly per-job: whenever
the transport constructor succeeds, each job in a worker's job sequence
opens exactly one fresh transport (`mkTransport` appears once per job, so
`n` jobs connect `n` times — nothing is reused), and every job explicitly
closes its transport before returning. -/
theorem C1_amended_per_job_connection (env : Env) (texts : List String)
    (htr : env.transportOk = true) :
    (runJobs env texts).count Ev.mkTransport = texts.length ∧
    ∀ t, Ev.closeTransport ∈ (process_tts env t).2 := by
  constructor
  · induction texts with
    | nil => rfl
    | cons a l ih =>
      simp only [runJobs, List.map_cons, List.flatten_cons,
        List.count_append] at ih ⊢
      rw [process_tts_count_mkTransport env a htr, ih]
      simp [Nat.add_comm]
  · intro t
    exact process_tts_closeTransport env t htr

/-- Witness for the amended C1: two concrete successful jobs connect twice,
and a concrete job closes its transport. -/
theorem C1_amended_per_job_connection_witness :
    (runJobs okEnv ["Hola mundo", "Adios"]).count Ev.mkTransport =
      (["Hola mundo", "Adios"] : List String).length ∧
    Ev.closeTransport ∈ (process_tts okEnv "Hola mundo").2 :=
  ⟨(C1_amended_per_job_connection okEnv ["Hola mundo", "Adios"] rfl).1,
    (C1_amended_per_job_connection okEnv ["Hola mundo", "Adios"] rfl).2
      "Hola mundo"⟩

/-- **C2 (counterexample)** — The claim says the RemoteChannel connection
is obtained only at the Deliver step, after synthesis and transcoding have
completed.  In a fully successful run the trace shows the transport being
created, connected and the SFTP session positioned *before* `synthesizeEv`:
the connection events occupy positions 0–3 and synthesis position 4. -/
theorem C2_counterexample :
    (process_tts okEnv "Hola mundo").2 =
      [Ev.mkTransport, Ev.connectTransport, Ev.openSftp,
        Ev.chdirEv REMOTE_PATH, Ev.synthesizeEv, Ev.packageEv,
        Ev.transcodeEv,
        Ev.uploadEv (some REMOTE_PATH) "0123456789abcdef0123456789abcdef.gsm",
        Ev.closeSftp, Ev.closeTransport] ∧
    (process_tts okEnv "Hola mundo").2.indexOf Ev.mkTransport <
      (process_tts okEnv "Hola mundo").2.indexOf Ev.synthesizeEv := by decide

/-- **C2 (amended)** — For every job whose stages all succeed, the pipeline
executes in the order: connect transport → open SFTP → change into the
remote directory → Synthesize → Package → Transcode → Deliver (upload),
with teardown last; in particular the remote connection is obtained at the
start of the job, before synthesis, and the upload happens last, after
transcoding. -/
theorem C2_amended_stage_order (env : Env) (text : String)
    (htr : env.transportOk = true) (hc : env.connectOk = true)
    (hsf : env.sftpOk = true) (hd : REMOTE_PATH ∈ env.dirs)
    (pcm g : List Nat) (hsy : env.synth text = Except.ok pcm)
    (htc : env.transcode (wavPackage env.sampleRate pcm) = Except.ok g)
    (hu : env.uploadOk = true) :
    (process_tts env text).2 =
      [Ev.mkTransport, Ev.connectTransport, Ev.openSftp,
        Ev.chdirEv REMOTE_PATH, Ev.synthesizeEv, Ev.packageEv,
        Ev.transcodeEv, Ev.uploadEv (some REMOTE_PATH) (env.freshHex ++ ".gsm"),
        Ev.closeSftp, Ev.closeTransport] := by
  show (ptBody env text).events ++ _ ++ _ = _
  rw [ptBody_eq_dirExists env text htr hc hsf hd]
  have hopen := ptAfterChdir_opened env text
    [Ev.mkTransport, Ev.connectTransport, Ev.openSftp, Ev.chdirEv REMOTE_PATH]
    (some REMOTE_PATH)
  rw [hopen.1, hopen.2]
  simp [ptAfterChdir, hsy, htc, hu]

/-- Witness for the amended C2 at the concrete successful environment. -/
theorem C2_amended_stage_order_witness :
    (process_tts okEnv "Hola mundo").2 =
      [Ev.mkTransport, Ev.connectTransport, Ev.openSftp,
        Ev.chdirEv REMOTE_PATH, Ev.synthesizeEv, Ev.packageEv,
        Ev.transcodeEv,
        Ev.uploadEv (some REMOTE_PATH) (okEnv.freshHex ++ ".gsm"),
        Ev.closeSftp, Ev.closeTransport] :=
  C2_amended_stage_order okEnv "Hola mundo" rfl rfl rfl (by decide)
    [1, 2, 3, 4] [7, 8] rfl rfl rfl

/-- **C3 (counterexample)** — The claim says a successful job's filename
consists of 64 hexadecimal characters followed by `.gsm`.  The code uses
`uuid.uuid4().hex`, which is 32 hexadecimal characters (a 128-bit UUID in
hex), so a fully successful run with a legitimate `uuid4().hex` draw
produces a 36-character filename — 32 hex digits plus `.gsm` — which fails
the spec's 64-hex naming pattern. -/
theorem C3_counterexample :
    specFilename64Hex
      (resultFilename (process_tts okEnv "Hola mundo").1) = false ∧
    resultFilename (process_tts okEnv "Hola mundo").1 =
      "0123456789abcdef0123456789abcdef.gsm" ∧
    (resultFilename (process_tts okEnv "Hola mundo").1).length = 36 := by
  decide

/-- **C3 (amended)** — For every successfully processed job, the filename
in the result is `uuid4().hex ++ ".gsm"`; since `uuid4().hex` is 32
hexadecimal characters, the filename is 36 characters long: 32 hex digits
followed by the fixed extension `.gsm`. -/
theorem C3_amended_filename_32hex (env : Env) (text : String) (r : TtsResult)
    (hok : (process_tts env text).1 = Except.ok r)
    (hlen : env.freshHex.length = 32)
    (hhex : ∀ c ∈ env.freshHex.data, isHexChar c = true) :
    r.filename = env.freshHex ++ ".gsm" ∧
    r.filename.length = 36 ∧
    r.filename.data.take 32 = env.freshHex.data ∧
    r.filename.data.drop 32 = (".gsm" : String).data ∧
    ∀ c ∈ r.filename.data.take 32, isHexChar c = true := by
  obtain ⟨hf, _⟩ := process_tts_ok_shape env text r hok
  have hdata : r.filename.data =
      env.freshHex.data ++ (".gsm" : String).data := by
    rw [hf]
    rfl
  have hdlen : env.freshHex.data.length = 32 := hlen
  refine ⟨hf, ?_, ?_, ?_, ?_⟩
  · show r.filename.data.length = 36
    rw [hdata, List.length_append, hdlen]
    rfl
  · rw [hdata, ← hdlen, List.take_left]
  · rw [hdata, ← hdlen, List.drop_left]
  · intro c hc
    rw [hdata, ← hdlen, List.take_left] at hc
    exact hhex c hc

/-- Witness for the amended C3: the concrete successful run's result has
filename `uuid4().hex ++ ".gsm"`. -/
theorem C3_amended_filename_32hex_witness :
    (⟨"0123456789abcdef0123456789abcdef.gsm",
      "10.101.214.227:/var/lib/asterisk/sounds/campanas/0123456789abcdef0123456789abcdef.gsm"⟩ :
      TtsResult).filename = okEnv.freshHex ++ ".gsm" :=
  (C3_amended_filename_32hex okEnv "Hola mundo"
    ⟨"0123456789abcdef0123456789abcdef.gsm",
      "10.101.214.227:/var/lib/asterisk/sounds/campanas/0123456789abcdef0123456789abcdef.gsm"⟩
    (by rfl) (by decide) (by decide)).1

/-- **C8** — Before any upload the remote channel is connected and
positioned at the configured delivery directory: every `putfo` in a job's
trace happens with the SFTP session's working directory equal to
`REMOTE_PATH` and with the SFTP client open; and when the directory does
not exist (the `chdir` raises `IOError`) and `mkdir` succeeds, the trace
shows the directory being created and then changed into, right after the
connection is established and before everything else. -/
theorem C8_positioned_before_upload (env : Env) (text : String) :
    (∀ cwd name, Ev.uploadEv cwd name ∈ (process_tts env text).2 →
      cwd = some REMOTE_PATH ∧ Ev.openSftp ∈ (process_tts env text).2) ∧
    (env.mkdirOk = true → REMOTE_PATH ∉ env.dirs →
      Ev.openSftp ∈ (process_tts env text).2 →
      ∃ tail, (process_tts env text).2 =
        [Ev.mkTransport, Ev.connectTransport, Ev.openSftp,
          Ev.mkdirEv REMOTE_PATH, Ev.chdirEv REMOTE_PATH] ++ tail) := by
  cases htr : env.transportOk
  · constructor
    · intro cwd name h
      simp [process_tts, ptBody, htr] at h
    · intro _ _ h
      simp [process_tts, ptBody, htr] at h
  · cases hc : env.connectOk
    · constructor
      · intro cwd name h
        simp [process_tts, ptBody, htr, hc] at h
      · intro _ _ h
        simp [process_tts, ptBody, htr, hc] at h
    · cases hsf : env.sftpOk
      · constructor
        · intro cwd name h
          simp [process_tts, ptBody, htr, hc, hsf] at h
        · intro _ _ h
          simp [process_tts, ptBody, htr, hc, hsf] at h
      · by_cases hd : REMOTE_PATH ∈ env.dirs
        · constructor
          · intro cwd name h
            have hb := ptBody_eq_dirExists env text htr hc hsf hd
            have hopen := ptAfterChdir_opened env text
              [Ev.mkTransport, Ev.connectTransport, Ev.openSftp,
                Ev.chdirEv REMOTE_PATH] (some REMOTE_PATH)
            have h2 : Ev.uploadEv cwd name ∈
                (ptAfterChdir env text
                  [Ev.mkTransport, Ev.connectTransport, Ev.openSftp,
                    Ev.chdirEv REMOTE_PATH] (some REMOTE_PATH)).events := by
              have hfull : (process_tts env text).2 =
                  (ptAfterChdir env text
                    [Ev.mkTransport, Ev.connectTransport, Ev.openSftp,
                      Ev.chdirEv REMOTE_PATH] (some REMOTE_PATH)).events ++
                    [Ev.closeSftp] ++ [Ev.closeTransport] := by
                show (ptBody env text).events ++ _ ++ _ = _
                rw [hb, hopen.1, hopen.2]
                simp
              rw [hfull] at h
              simp only [List.append_assoc, List.mem_append] at h
              rcases h with h | h
              · exact h
              · simp at h
            rcases ptAfterChdir_upload_mem env text _ _ cwd name h2 with
              hin | ⟨hcwd, _⟩
            · simp at hin
            · refine ⟨hcwd, ?_⟩
              obtain ⟨suffix, hsuf⟩ := ptAfterChdir_events_prefix env text
                [Ev.mkTransport, Ev.connectTransport, Ev.openSftp,
                  Ev.chdirEv REMOTE_PATH] (some REMOTE_PATH)
              show Ev.openSftp ∈ (ptBody env text).events ++ _ ++ _
              rw [hb, hsuf]
              simp
          · intro _ hd2 _
            exact absurd hd hd2
        · cases hm : env.mkdirOk
          · constructor
            · intro cwd name h
              simp [process_tts, ptBody, htr, hc, hsf, hd, hm] at h
            · intro hmt _ _
              exact absurd hmt (by simp [hm])
          · constructor
            · intro cwd name h
              have hb := ptBody_eq_dirCreated env text htr hc hsf hd hm
              have hopen := ptAfterChdir_opened env text
                [Ev.mkTransport, Ev.connectTransport, Ev.openSftp,
                  Ev.mkdirEv REMOTE_PATH, Ev.chdirEv REMOTE_PATH]
                (some REMOTE_PATH)
              have h2 : Ev.uploadEv cwd name ∈
                  (ptAfterChdir env text
                    [Ev.mkTransport, Ev.connectTransport, Ev.openSftp,
                      Ev.mkdirEv REMOTE_PATH, Ev.chdirEv REMOTE_PATH]
                    (some REMOTE_PATH)).events := by
                have hfull : (process_tts env text).2 =
                    (ptAfterChdir env text
                      [Ev.mkTransport, Ev.connectTransport, Ev.openSftp,
                        Ev.mkdirEv REMOTE_PATH, Ev.chdirEv REMOTE_PATH]
                      (some REMOTE_PATH)).events ++
                      [Ev.closeSftp] ++ [Ev.closeTransport] := by
                  show (ptBody env text).events ++ _ ++ _ = _
                  rw [hb, hopen.1, hopen.2]
                  simp
                rw [hfull] at h
                simp only [List.append_assoc, List.mem_append] at h
                rcases h with h | h
                · exact h
                · simp at h
              rcases ptAfterChdir_upload_mem env text _ _ cwd name h2 with
                hin | ⟨hcwd, _⟩
              · simp at hin
              · refine ⟨hcwd, ?_⟩
                obtain ⟨suffix, hsuf⟩ := ptAfterChdir_events_prefix env text
                  [Ev.mkTransport, Ev.connectTransport, Ev.openSftp,
                    Ev.mkdirEv REMOTE_PATH, Ev.chdirEv REMOTE_PATH]
                  (some REMOTE_PATH)
                show Ev.openSftp ∈ (ptBody env text).events ++ _ ++ _
                rw [hb, hsuf]
                simp
            · intro _ _ _
              obtain ⟨suffix, hsuf⟩ := ptAfterChdir_events_prefix env text
                [Ev.mkTransport, Ev.connectTransport, Ev.openSftp,
                  Ev.mkdirEv REMOTE_PATH, Ev.chdirEv REMOTE_PATH]
                (some REMOTE_PATH)
              have hb := ptBody_eq_dirCreated env text htr hc hsf hd hm
              refine ⟨suffix ++
                ((if (ptBody env text).sftpOpened then [Ev.closeSftp] else []) ++
                  (if (ptBody env text).transportOpened
                    then [Ev.closeTransport] else [])), ?_⟩
              show (ptBody env text).events ++ _ ++ _ = _
              rw [hb, hsuf]
              simp

/-- Witness for C8: in the concrete successful run the upload is positioned
at `REMOTE_PATH`, and in the run where the remote directory is missing the
trace starts with connect → `mkdir` → `chdir`. -/
theorem C8_positioned_before_upload_witness :
    ((some REMOTE_PATH : Option String) = some REMOTE_PATH ∧
      Ev.openSftp ∈ (process_tts okEnv "Hola mundo").2) ∧
    ∃ tail, (process_tts noDirEnv "Hola mundo").2 =
      [Ev.mkTransport, Ev.connectTransport, Ev.openSftp,
        Ev.mkdirEv REMOTE_PATH, Ev.chdirEv REMOTE_PATH] ++ tail :=
  ⟨(C8_positioned_before_upload okEnv "Hola mundo").1 (some REMOTE_PATH)
      (okEnv.freshHex ++ ".gsm") (by decide),
    (C8_positioned_before_upload noDirEnv "Hola mundo").2 rfl (by decide)
      (by decide)⟩

/-- **C10** — On every exit path of `process_tts` — success or any stage
raising — whatever was opened is closed by the `finally` block: if the
transport was created, `transport.close()` appears in the trace, and if
the SFTP client was created, `sftp_client.close()` appears in the trace. -/
theorem C10_connections_closed (env : Env) (text : String) :
    (Ev.mkTransport ∈ (process_tts env text).2 →
      Ev.closeTransport ∈ (process_tts env text).2) ∧
    (Ev.openSftp ∈ (process_tts env text).2 →
      Ev.closeSftp ∈ (process_tts env text).2) := by
  cases htr : env.transportOk
  · simp [process_tts, ptBody, htr]
  · cases hc : env.connectOk
    · simp [process_tts, ptBody, htr, hc]
    · cases hsf : env.sftpOk
      · simp [process_tts, ptBody, htr, hc, hsf]
      · have hop := ptBody_opened env text htr hc hsf
        constructor <;> intro _ <;> simp [process_tts, hop.1, hop.2]

/-- Witness for C10: both implications at the concrete successful run. -/
theorem C10_connections_closed_witness :
    Ev.closeTransport ∈ (process_tts okEnv "Hola mundo").2 ∧
    Ev.closeSftp ∈ (process_tts okEnv "Hola mundo").2 :=
  ⟨(C10_connections_closed okEnv "Hola mundo").1 (by decide),
    (C10_connections_closed okEnv "Hola mundo").2 (by decide)⟩

end TTSService
